import Mathlib

/-!
Shallow embedding of `src/bot.py` (a Telegram bot that scrapes a Garena
player name through a Steel remote-browser session driven by Playwright).
The scrape workflow `fetch_player_name` and the message handler
`handle_player_id` are embedded as pure functions over an explicit failure
oracle `Env`; the remote-call side effects of one invocation are recorded
as an event trace.
-/

namespace TopupBot

/-- Remote/browser side effects issued by `fetch_player_name`, in program
order. An event is recorded when the corresponding call is issued, whether
or not the call succeeds. `fill` carries the value typed into the player-ID
input control. -/
inductive Event where
  | sessionCreate
  | connect
  | goto
  | fill (value : String)
  | click
  | waitResult
  | browserClose
  | playwrightStop
  | sessionRelease
  deriving DecidableEq

/-- Python exceptions as distinguished by the handlers in
`fetch_player_name`: `playwright.sync_api.TimeoutError` (imported as
`PlaywrightTimeout`) versus any other `Exception`. -/
inductive PyExn where
  | playwrightTimeout
  | otherError
  deriving DecidableEq

/-- Failure oracle for a single invocation: which external calls succeed,
the text contents of the DOM elements matching the result selector
`div.line-clamp-2.text-sm\/none.font-bold` (in DOM order; the code takes
`.first`), and the time in milliseconds at which the first such element
appears (ignored when `resultElems` is empty, i.e. it never appears). -/
structure Env where
  createOk : Bool
  playwrightStartOk : Bool
  connectOk : Bool
  pageOk : Bool
  gotoOk : Bool
  fillOk : Bool
  clickOk : Bool
  resultElems : List String
  appearTimeMs : Nat

/-- The bound passed to `name_element.wait_for(timeout=10000)` at
src/bot.py line 68, in milliseconds. -/
def resultWaitTimeoutMs : Nat := 10000

/-- The result-wait step succeeds: some element matches the result
selector and the first match appears within the 10000 ms bound. -/
def waitOk (env : Env) : Bool :=
  !env.resultElems.isEmpty && decide (env.appearTimeMs ≤ resultWaitTimeoutMs)

/-- Which local variables of the `try` body are bound when the `finally`
block runs. The `finally` block references them in order and a reference
to an unbound one raises `NameError`. -/
structure Binds where
  client : Bool
  session : Bool
  playwright : Bool
  browser : Bool
  deriving DecidableEq

/-- The `try` body of `fetch_player_name` (src/bot.py lines 33-79):
returns the body's outcome (extracted name, or the exception it raises),
the variable bindings live at exit, and the trace of remote calls issued.
Comments quote the Python statement each step embeds. -/
def tryBody (env : Env) (player_id : String) :
    Except PyExn String × Binds × List Event :=
  -- client = Steel(steel_api_key=STEEL_API_KEY)
  let b0 : Binds := ⟨true, false, false, false⟩
  -- session = client.sessions.create()
  if !env.createOk then (.error .otherError, b0, [.sessionCreate]) else
  let b1 : Binds := { b0 with session := true }
  -- playwright = sync_playwright().start()
  if !env.playwrightStartOk then (.error .otherError, b1, [.sessionCreate]) else
  let b2 : Binds := { b1 with playwright := true }
  -- browser = playwright.chromium.connect_over_cdp(...)
  if !env.connectOk then (.error .otherError, b2, [.sessionCreate, .connect]) else
  let b3 : Binds := { b2 with browser := true }
  -- context = browser.contexts[0]; page = context.pages[0] or context.new_page()
  if !env.pageOk then (.error .otherError, b3, [.sessionCreate, .connect]) else
  -- page.goto("https://shop.garena.my/...", wait_until="networkidle")
  if !env.gotoOk then (.error .otherError, b3, [.sessionCreate, .connect, .goto]) else
  -- input_field = page.get_by_placeholder(...); input_field.fill(player_id)
  if !env.fillOk then
    (.error .otherError, b3, [.sessionCreate, .connect, .goto, .fill player_id]) else
  -- login_button = page.locator(...); login_button.click()
  if !env.clickOk then
    (.error .otherError, b3,
      [.sessionCreate, .connect, .goto, .fill player_id, .click]) else
  -- name_element = page.locator(...).first; name_element.wait_for(timeout=10000)
  if !waitOk env then
    (.error .playwrightTimeout, b3,
      [.sessionCreate, .connect, .goto, .fill player_id, .click, .waitResult]) else
  -- player_name = name_element.text_content()
  let player_name := env.resultElems.headD ""
  -- browser.close(); playwright.stop(); client.sessions.release(session.id)
  (.ok player_name, b3,
    [.sessionCreate, .connect, .goto, .fill player_id, .click, .waitResult,
     .browserClose, .playwrightStop, .sessionRelease])

/-- The `finally` block (src/bot.py lines 87-93): `browser.close()`,
`playwright.stop()`, `client.sessions.release(session.id)` wrapped in a
bare `try/except: pass`. Referencing an unbound variable raises
`NameError`, which the bare `except` swallows, so nothing after the first
unbound reference runs. Closing an already-closed browser connection and
stopping a stopped Playwright driver do not raise; releasing an
already-released session may raise on the provider side, but the request
is still issued and any error is swallowed. -/
def finallyTrace (b : Binds) : List Event :=
  if !b.browser then []
  else .browserClose ::
    (if !b.playwright then []
     else .playwrightStop ::
       (if !(b.client && b.session) then [] else [.sessionRelease]))

/-- `fetch_player_name` (src/bot.py lines 28-93). The `except
PlaywrightTimeout` and `except Exception` handlers both return `None`;
the `finally` trace is appended after the body's trace. A result of
`Except.ok` means the call returns normally to its caller. -/
def fetch_player_name (env : Env) (player_id : String) :
    Except PyExn (Option String) × List Event :=
  let (out, b, tr) := tryBody env player_id
  let result : Except PyExn (Option String) :=
    match out with
    | .ok name => .ok (some name)
    | .error .playwrightTimeout => .ok none
    | .error .otherError => .ok none
  (result, tr ++ finallyTrace b)

/-- Reply sent when validation fails (src/bot.py lines 121-124). -/
def invalidIdMsg : String :=
  "❌ Invalid player ID. Please send only numbers.\nExample: 123456789"

/-- Reply edited into the placeholder on success (src/bot.py lines 139-143). -/
def foundMsg (player_id player_name : String) : String :=
  "✅ Player Found!\n\nPlayer ID: " ++ player_id ++
    "\nPlayer Name: " ++ player_name

/-- Reply edited into the placeholder when no name was found
(src/bot.py lines 146-149). -/
def notFoundMsg (player_id : String) : String :=
  "❌ Could not find player with ID: " ++ player_id ++
    "\n\nPlease check the ID and try again."

/-- Reply edited into the placeholder when `fetch_player_name` or the
success edit raises (src/bot.py lines 152-155). -/
def errorOccurredMsg : String :=
  "❌ An error occurred while fetching player information.\nPlease try again later."

/-- Python `str.isdigit` restricted to ASCII digits: true iff the string
is non-empty and every character is a decimal digit. -/
def pyIsDigit (s : String) : Bool :=
  !s.data.isEmpty && s.data.all Char.isDigit

/-- Python `str.strip` with no argument: remove leading and trailing
whitespace characters. -/
def pyStrip (s : String) : String :=
  ⟨((s.data.dropWhile Char.isWhitespace).reverse.dropWhile Char.isWhitespace).reverse⟩

/-- The reply `handle_player_id` edits into the placeholder, as a function
of the outcome of `fetch_player_name` (src/bot.py lines 137-155). The
Python truthiness test `if player_name:` sends both `None` and the empty
string to the not-found branch; a raised exception takes the `except`
branch. -/
def replyText (player_id : String) : Except PyExn (Option String) → String
  | .ok (some player_name) =>
      if player_name = "" then notFoundMsg player_id
      else foundMsg player_id player_name
  | .ok none => notFoundMsg player_id
  | .error _ => errorOccurredMsg

/-- The body of `handle_player_id` after validation passed (src/bot.py
lines 127-155): call `fetch_player_name` on the validated identifier and
format the reply. -/
def dispatchValidated (env : Env) (player_id : String) : String × List Event :=
  let r := fetch_player_name env player_id
  (replyText player_id r.1, r.2)

/-- `handle_player_id` (src/bot.py lines 115-155): strip the message
text, validate digits-only, and either reply with the fixed
validation-error message (issuing no remote call) or run the scrape
workflow and format its result. Returns the final user-visible reply and
the trace of remote calls issued while handling the message. -/
def handle_player_id (env : Env) (text : String) : String × List Event :=
  let player_id := pyStrip text
  if !pyIsDigit player_id then (invalidIdMsg, [])
  else dispatchValidated env player_id

/-- Every step of the scrape workflow succeeds. -/
def fullSuccess (env : Env) : Bool :=
  env.createOk && env.playwrightStartOk && env.connectOk && env.pageOk &&
    env.gotoOk && env.fillOk && env.clickOk && waitOk env

/-- `pat` is a prefix of the character list. -/
def prefixAt : List Char → List Char → Bool
  | [], _ => true
  | _ :: _, [] => false
  | a :: as, b :: bs => a == b && prefixAt as bs

/-- `p` occurs as a contiguous run somewhere in the character list. -/
def containsAux (p : List Char) : List Char → Bool
  | [] => p.isEmpty
  | b :: bs => prefixAt p (b :: bs) || containsAux p bs

/-- `s` contains `pat` as a contiguous substring. -/
def strContains (s pat : String) : Bool :=
  containsAux pat.data s.data

/-- An environment in which everything succeeds and the page answers with
the single result element "PlayerX", appearing immediately. -/
def envAllOk : Env := ⟨true, true, true, true, true, true, true, ["PlayerX"], 0⟩

/-- An environment in which everything succeeds but the result element's
text content is the empty string. -/
def envEmptyName : Env := ⟨true, true, true, true, true, true, true, [""], 0⟩

/-- An environment in which the Steel session is created but
`connect_over_cdp` fails. -/
def envConnectFails : Env := ⟨true, true, false, true, true, true, true, ["PlayerX"], 0⟩

/-- An environment in which every step up to the result wait succeeds but
no element ever matches the result selector, so the 10 s wait times out. -/
def envNoResult : Env := ⟨true, true, true, true, true, true, true, [], 0⟩

/-- The event is a fill of the player-ID input control. -/
def isFillEv : Event → Bool
  | .fill _ => true
  | _ => false

/-- Claim C1: the code contradicts the claimed release-on-every-exit-path
invariant. When the Steel session is created but `connect_over_cdp` fails,
the `finally` block hits the unbound local `browser`, the resulting
`NameError` is swallowed by the bare `except`, and `client.sessions.release`
is never issued: the created session leaks. The trace of the run shows one
session-create and zero session-release events. -/
theorem C1_session_leaked_when_connect_fails :
    fetch_player_name envConnectFails "123456789"
        = (Except.ok none, [Event.sessionCreate, Event.connect]) ∧
      (fetch_player_name envConnectFails "123456789").2.count Event.sessionRelease = 0 :=
  ⟨rfl, rfl⟩

/-- Claim C2, counterexample: on a fully successful run the cleanup
sequence runs twice, not exactly once — the explicit cleanup at the end of
the `try` body and then the `finally` block again: two browser-close and
two session-release events appear in the trace. -/
theorem C2_cleanup_runs_twice_on_success :
    (fetch_player_name envAllOk "123456789").2.count Event.browserClose = 2 ∧
      (fetch_player_name envAllOk "123456789").2.count Event.sessionRelease = 2 :=
  ⟨rfl, rfl⟩

/-- Claim C2, amended: the cleanup sequence runs at most twice per
invocation (twice exactly on the fully successful path), it runs at least
once whenever the browser connection was established, and the duplicate
release is suppressed by the `finally` block's bare `except`, so
`fetch_player_name` always returns normally — never an exception — to its
caller. -/
theorem C2_amended_cleanup_bounded_and_silent (env : Env) (pid : String) :
    (fetch_player_name env pid).2.count Event.browserClose ≤ 2 ∧
      (fetch_player_name env pid).2.count Event.sessionRelease ≤ 2 ∧
      (∀ e : PyExn, (fetch_player_name env pid).1 ≠ Except.error e) ∧
      (env.createOk = true → env.playwrightStartOk = true → env.connectOk = true →
        1 ≤ (fetch_player_name env pid).2.count Event.sessionRelease) := by
  cases hc : env.createOk <;> cases hp : env.playwrightStartOk <;>
    cases hco : env.connectOk <;> cases hpg : env.pageOk <;> cases hg : env.gotoOk <;>
    cases hf : env.fillOk <;> cases hcl : env.clickOk <;> cases hw : waitOk env <;>
    simp [fetch_player_name, tryBody, finallyTrace, hc, hp, hco, hpg, hg, hf, hcl, hw,
      List.count_cons]

/-- Witness for the amended C2 theorem at a concrete successful run. -/
theorem C2_amended_cleanup_bounded_and_silent_witness :
    1 ≤ (fetch_player_name envAllOk "123456789").2.count Event.sessionRelease :=
  (C2_amended_cleanup_bounded_and_silent envAllOk "123456789").2.2.2 rfl rfl rfl

/-- Claim C3: the result wait is bounded at 10000 ms (10 seconds) and the
locator takes the first matching element; in any run that reaches the wait
step, if no result element appears within the bound the raised
`PlaywrightTimeout` is converted to the `None` outcome rather than
propagated, and otherwise the text of the first match is returned. -/
theorem C3_wait_bounded_ten_seconds_first_match (env : Env) (pid : String)
    (hc : env.createOk = true) (hp : env.playwrightStartOk = true)
    (hco : env.connectOk = true) (hpg : env.pageOk = true) (hg : env.gotoOk = true)
    (hf : env.fillOk = true) (hcl : env.clickOk = true) :
    resultWaitTimeoutMs = 10000 ∧
      (waitOk env = false → (fetch_player_name env pid).1 = Except.ok none) ∧
      (waitOk env = true →
        (fetch_player_name env pid).1 = Except.ok (some (env.resultElems.headD ""))) := by
  refine ⟨rfl, ?_, ?_⟩ <;> intro hw <;>
    simp [fetch_player_name, tryBody, hc, hp, hco, hpg, hg, hf, hcl, hw]

/-- Witness for C3 at a concrete run where the result element never
appears: the outcome is `None`, not a fault. -/
theorem C3_wait_bounded_ten_seconds_first_match_witness :
    (fetch_player_name envNoResult "123456789").1 = Except.ok none :=
  (C3_wait_bounded_ten_seconds_first_match envNoResult "123456789"
    rfl rfl rfl rfl rfl rfl rfl).2.1 rfl

/-- Claim C4: whenever any step of the scrape workflow fails,
`fetch_player_name` catches the exception and returns `None`, and the
user-visible reply produced by `handle_player_id` is the uniform not-found
message; no workflow failure reaches the chat-platform boundary as an
unhandled fault. -/
theorem C4_workflow_failures_surface_as_not_found (env : Env) (text : String)
    (hd : pyIsDigit (pyStrip text) = true) (hfail : fullSuccess env = false) :
    (fetch_player_name env (pyStrip text)).1 = Except.ok none ∧
      (handle_player_id env text).1 = notFoundMsg (pyStrip text) := by
  have hnone : (fetch_player_name env (pyStrip text)).1 = Except.ok none := by
    cases hc : env.createOk <;> cases hp : env.playwrightStartOk <;>
      cases hco : env.connectOk <;> cases hpg : env.pageOk <;> cases hg : env.gotoOk <;>
      cases hf : env.fillOk <;> cases hcl : env.clickOk <;> cases hw : waitOk env <;>
      simp_all [fetch_player_name, tryBody, fullSuccess]
  refine ⟨hnone, ?_⟩
  simp [handle_player_id, hd, dispatchValidated, hnone, replyText]

/-- Witness for C4 at a concrete run where the browser connection fails. -/
theorem C4_workflow_failures_surface_as_not_found_witness :
    (handle_player_id envConnectFails "123456789").1 = notFoundMsg "123456789" :=
  (C4_workflow_failures_surface_as_not_found envConnectFails "123456789"
    (by decide) rfl).2

/-- Claim C5: if the stripped message text contains any non-digit
character, validation fails: `handle_player_id` replies with the fixed
validation-error message and issues no remote call at all (in particular
no session is leased and `fetch_player_name` is never invoked). -/
theorem C5_nondigit_input_rejected_without_lease (env : Env) (text : String)
    (c : Char) (hc : c ∈ (pyStrip text).data) (hnd : c.isDigit = false) :
    handle_player_id env text = (invalidIdMsg, []) := by
  have hall : (pyStrip text).data.all Char.isDigit = false := by
    cases h : (pyStrip text).data.all Char.isDigit with
    | true => exact absurd (List.all_eq_true.mp h c hc) (by simp [hnd])
    | false => rfl
  have hv : pyIsDigit (pyStrip text) = false := by simp [pyIsDigit, hall]
  simp [handle_player_id, hv]

/-- Witness for C5 at the spec's example input "abc123". -/
theorem C5_nondigit_input_rejected_without_lease_witness :
    handle_player_id envAllOk "abc123" = (invalidIdMsg, []) :=
  C5_nondigit_input_rejected_without_lease envAllOk "abc123" 'a' (by decide) (by decide)

/-- Claim C6: with identifier "123456789" and a page whose result element
reads "PlayerX", `fetch_player_name` returns "PlayerX" and the reply edited
into the placeholder contains both the identifier and the name. -/
theorem C6_playerx_end_to_end :
    (fetch_player_name envAllOk "123456789").1 = Except.ok (some "PlayerX") ∧
      strContains (handle_player_id envAllOk "123456789").1 "123456789" = true ∧
      strContains (handle_player_id envAllOk "123456789").1 "PlayerX" = true := by
  refine ⟨rfl, ?_, ?_⟩ <;> decide

/-- Claim C7, counterexample: the code does not check the extracted text
for emptiness; on a successful run whose result element has empty text
content, `fetch_player_name` returns the empty string, not `None`. -/
theorem C7_empty_name_possible :
    (fetch_player_name envEmptyName "123456789").1 = Except.ok (some "") :=
  rfl

/-- Claim C7, amended: `fetch_player_name` returns either `None` or the
text content of the first element matching the result selector, with no
non-emptiness guarantee on the returned name. -/
theorem C7_amended_result_shape (env : Env) (pid : String) :
    (fetch_player_name env pid).1 = Except.ok none ∨
      (fetch_player_name env pid).1 = Except.ok (some (env.resultElems.headD "")) := by
  cases hc : env.createOk <;> cases hp : env.playwrightStartOk <;>
    cases hco : env.connectOk <;> cases hpg : env.pageOk <;> cases hg : env.gotoOk <;>
    cases hf : env.fillOk <;> cases hcl : env.clickOk <;> cases hw : waitOk env <;>
    simp [fetch_player_name, tryBody, hc, hp, hco, hpg, hg, hf, hcl, hw]

set_option maxHeartbeats 2000000 in
/-- Claim C8: every invocation of `fetch_player_name` issues exactly one
session-create request, and no forward step — connection, navigation,
fill, click, or result wait — is issued more than once: nothing is
retried. -/
theorem C8_exactly_one_lease_no_retries (env : Env) (pid : String) :
    (fetch_player_name env pid).2.count Event.sessionCreate = 1 ∧
      (fetch_player_name env pid).2.count Event.connect ≤ 1 ∧
      (fetch_player_name env pid).2.count Event.goto ≤ 1 ∧
      (fetch_player_name env pid).2.countP isFillEv ≤ 1 ∧
      (fetch_player_name env pid).2.count Event.click ≤ 1 ∧
      (fetch_player_name env pid).2.count Event.waitResult ≤ 1 := by
  cases hc : env.createOk <;> cases hp : env.playwrightStartOk <;>
    cases hco : env.connectOk <;> cases hpg : env.pageOk <;> cases hg : env.gotoOk <;>
    cases hf : env.fillOk <;> cases hcl : env.clickOk <;> cases hw : waitOk env <;>
    simp [fetch_player_name, tryBody, finallyTrace, hc, hp, hco, hpg, hg, hf, hcl, hw,
      List.count_cons, List.countP_cons, isFillEv]

/-- Claim C9: if `fetch_player_name` returns the empty string (a value
that is not `None` but falsy in Python), `handle_player_id` reports the
not-found outcome, not a found player with an empty name. -/
theorem C9_empty_name_reported_not_found (env : Env) (text : String)
    (hd : pyIsDigit (pyStrip text) = true)
    (he : (fetch_player_name env (pyStrip text)).1 = Except.ok (some "")) :
    (handle_player_id env text).1 = notFoundMsg (pyStrip text) := by
  simp [handle_player_id, hd, dispatchValidated, he, replyText]

/-- Witness for C9 at a concrete run whose result element has empty text. -/
theorem C9_empty_name_reported_not_found_witness :
    (handle_player_id envEmptyName "123456789").1 = notFoundMsg "123456789" :=
  C9_empty_name_reported_not_found envEmptyName "123456789" (by decide) rfl

/-- Claim C10: `handle_player_id` strips leading and trailing whitespace
from the message text before validating; when the stripped text is all
digits, validation passes, the dispatch runs on the stripped identifier
(its remote-call trace is exactly that of `fetch_player_name` on the
stripped identifier), and on a successful run the value filled into the
player-ID input is the stripped identifier. -/
theorem C10_validation_on_stripped_text (env : Env) (text : String)
    (hd : pyIsDigit (pyStrip text) = true) :
    handle_player_id env text = dispatchValidated env (pyStrip text) ∧
      (handle_player_id env text).2 = (fetch_player_name env (pyStrip text)).2 ∧
      (fullSuccess env = true →
        Event.fill (pyStrip text) ∈ (handle_player_id env text).2) := by
  refine ⟨by simp [handle_player_id, hd], by simp [handle_player_id, hd, dispatchValidated], ?_⟩
  intro hfs
  have h8 := hfs
  simp [fullSuccess] at h8
  obtain ⟨⟨⟨⟨⟨⟨⟨hc, hp⟩, hco⟩, hpg⟩, hg⟩, hf⟩, hcl⟩, hw⟩ := h8
  simp [handle_player_id, hd, dispatchValidated, fetch_player_name, tryBody,
    hc, hp, hco, hpg, hg, hf, hcl, hw]

/-- Witness for C10 at the example message with surrounding whitespace. -/
theorem C10_validation_on_stripped_text_witness :
    pyStrip "  123  " = "123" ∧
      Event.fill (pyStrip "  123  ") ∈ (handle_player_id envAllOk "  123  ").2 :=
  ⟨by decide, (C10_validation_on_stripped_text envAllOk "  123  " (by decide)).2.2 rfl⟩

end TopupBot
